import Mathlib

/-!
Shallow embedding of `trakt_sync.py` (Tautulli → Trakt.tv watched-history
sync script) and verification of its specification.

The script is single-threaded and performs blocking HTTP calls whose
responses we model as explicit inputs (the "environment").  Each operation
is embedded as a pure function from the current configuration state and
the environment to a result consisting of
  * an outcome (normal return value, `sys.exit(n)`, or an uncaught Python
    exception),
  * the configuration state after the operation, and
  * the ordered trace of observable events (HTTP requests, operator
    prompts, printed messages, `config.set` mutations and
    `write_settings` flushes).
-/

namespace TraktSync

/-- The persisted `sync_settings.ini` contents that the script reads and
writes: section `[Plex]` key `user_ids` and section `[Trakt]` keys
`client_id`, `client_secret`, `access_token`, `refresh_token`.
`none` models an absent key (Python `NoSectionError`/`NoOptionError`). -/
structure Config where
  user_ids : Option String
  client_id : Option String
  client_secret : Option String
  access_token : Option String
  refresh_token : Option String
deriving Repr, DecidableEq

/-- JSON values, used for request payloads the script posts. -/
inductive Json where
  | str : String → Json
  | num : Int → Json
  | arr : List Json → Json
  | obj : List (String × Json) → Json
deriving Repr

/-- Observable events in program order. `setOpt k v` is
`config.set('Trakt', k, v)`; `save` is a successful `write_settings()`
flushing the configuration to disk; `prompt` is a blocking `input(...)`. -/
inductive Event where
  | get : String → Event
  | post : String → Json → Event
  | prompt : Event
  | msg : String → Event
  | setOpt : String → String → Event
  | save : Event
deriving Repr

/-- How an operation ends: a normal return, `sys.exit n`, an uncaught
Python exception (`exn`), or `stuck` when the modelled environment
supplies no further HTTP response. -/
inductive Outcome (α : Type) where
  | ok : α → Outcome α
  | exited : Nat → Outcome α
  | exn : Outcome α
  | stuck : Outcome α
deriving Repr, DecidableEq

/-- Result of running an operation: outcome, final configuration, and the
event trace the operation produced. -/
structure Res (α : Type) where
  out : Outcome α
  cfg : Config
  events : List Event
deriving Repr

/-- Sequencing: run `r`, and if it returned normally continue with `f`
on its value and resulting configuration; traces concatenate.  Mirrors
straight-line Python where `sys.exit` and exceptions abort the rest. -/
def Res.andThen {α β : Type} (r : Res α) (f : α → Config → Res β) : Res β :=
  match r.out with
  | .ok a =>
    let r2 := f a r.cfg
    ⟨r2.out, r2.cfg, r.events ++ r2.events⟩
  | .exited n => ⟨.exited n, r.cfg, r.events⟩
  | .exn => ⟨.exn, r.cfg, r.events⟩
  | .stuck => ⟨.stuck, r.cfg, r.events⟩

/-- Python `str(...)` on an optional string argument (`str(None)` is
`"None"`), as used when ids come from absent CLI flags. -/
def pyStrS : Option String → String
  | none => "None"
  | some s => s

/-- Python `str(...)` on an optional integer argument. -/
def pyStrI : Option Int → String
  | none => "None"
  | some i => toString i

/-- Python `s.split(',')`, splitting at every comma and keeping empty
fields (worker over the remaining characters and the reversed current
field). -/
def pySplitCommaAux : List Char → List Char → List String
  | [], acc => [String.mk acc.reverse]
  | c :: rest, acc =>
    if c == ',' then String.mk acc.reverse :: pySplitCommaAux rest []
    else pySplitCommaAux rest (c :: acc)

/-- Python `s.split(',')` as used on the `user_ids` setting. -/
def pySplitComma (s : String) : List String := pySplitCommaAux s.data []

/-- `sync_for_user(user_id)`: reads `[Plex] user_ids`; missing key is a
fatal configuration error (exit 1); otherwise returns whether
`str(user_id)` is a member of `user_ids.split(',')`. -/
def sync_for_user (cfg : Config) (user_id : Int) : Res Bool :=
  match cfg.user_ids with
  | none =>
    ⟨.exited 1, cfg, [.msg "ERROR: sync_settings.ini not setup - missing user_ids"]⟩
  | some user_ids =>
    ⟨.ok ((pySplitComma user_ids).contains (toString user_id)), cfg, []⟩

/-- The `Trakt` object's fields after `__init__`.  `type` is `none` for
the `Trakt(None, None, None)` construction, where the source sets no
`self.type` attribute at all. -/
structure Trakt where
  type : Option String := none
  imdb_id : Option String := none
  tvdb_id : Option Int := none
  season_num : Option Int := none
  episode_num : Option Int := none
  client_id : String
  client_secret : String
deriving Repr, DecidableEq

/-- The three ways `__main__` constructs a `Trakt` object. -/
inductive InitArgs where
  | movie : Option String → InitArgs
  | episode : Option Int → Option Int → Option Int → InitArgs
  | noneType : InitArgs
deriving Repr, DecidableEq

/-- `Trakt.__init__`: records the media reference fields, then reads
`client_id` and `client_secret` from the configuration, exiting 1 with an
error naming the missing field if either is absent. -/
def Trakt.init (cfg : Config) (args : InitArgs) : Res Trakt :=
  match cfg.client_id with
  | none =>
    ⟨.exited 1, cfg, [.msg "ERROR: sync_settings.ini not setup - missing client_id"]⟩
  | some cid =>
    match cfg.client_secret with
    | none =>
      ⟨.exited 1, cfg, [.msg "ERROR: sync_settings.ini not setup - missing client_secret"]⟩
    | some cs =>
      match args with
      | .movie i =>
        ⟨.ok { type := some "movie", imdb_id := i, client_id := cid, client_secret := cs },
          cfg, []⟩
      | .episode i s e =>
        ⟨.ok { type := some "episode", tvdb_id := i, season_num := s, episode_num := e,
               client_id := cid, client_secret := cs }, cfg, []⟩
      | .noneType =>
        ⟨.ok { client_id := cid, client_secret := cs }, cfg, []⟩

/-- `get_access_token`: returns the stored `access_token`, exiting 1 with
an error naming the missing field if absent. -/
def Trakt.get_access_token (cfg : Config) : Res String :=
  match cfg.access_token with
  | none =>
    ⟨.exited 1, cfg, [.msg "ERROR: sync_settings.ini not setup - missing access_token"]⟩
  | some tok => ⟨.ok tok, cfg, []⟩

/-- `get_refresh_token`: returns the stored `refresh_token`, exiting 1
with an error naming the missing field if absent. -/
def Trakt.get_refresh_token (cfg : Config) : Res String :=
  match cfg.refresh_token with
  | none =>
    ⟨.exited 1, cfg, [.msg "ERROR: sync_settings.ini not setup - missing refresh_token"]⟩
  | some tok => ⟨.ok tok, cfg, []⟩

/-- Response body of the device-code issuance call. -/
structure DeviceCodeResponse where
  verification_url : String
  user_code : String
  device_code : String
deriving Repr, DecidableEq

/-- One response to a `POST /oauth/device/token` poll: HTTP status code
plus the token fields of the JSON body (read only on status 200). -/
structure PollResponse where
  status : Nat
  access_token : String
  refresh_token : String
deriving Repr, DecidableEq

/-- Response to the `POST /oauth/token` refresh exchange.  The source
never inspects `status`: it reads the body tokens unconditionally. -/
structure TokenResponse where
  status : Nat
  access_token : String
  refresh_token : String
deriving Repr, DecidableEq

/-- `generate_device_code`: posts `{client_id}` to the device-code
endpoint, shows the verification URL and user code, blocks on operator
confirmation, and returns the device code from the response. -/
def Trakt.generate_device_code (t : Trakt) (cfg : Config) (resp : DeviceCodeResponse) :
    Res String :=
  ⟨.ok resp.device_code, cfg,
    [.post "https://api.trakt.tv/oauth/device/code" (.obj [("client_id", .str t.client_id)]),
     .msg ("Please go to " ++ resp.verification_url ++
       " and insert the following code: " ++ resp.user_code),
     .prompt]⟩

/-- `poll_access_token`: posts the device code to the token endpoint and
consumes the first environment response.  On HTTP 400 the source prompts
the operator and then executes
`return self.poll_access_token(self, headers, device_code)` — a call with
an extra positional `self` argument, which Python rejects with
`TypeError` before any further poll; this is the `exn` outcome.  On any
other non-200 status it prints an error and exits 1.  On 200 it stores
both tokens, flushes the settings file, and prints success. -/
def Trakt.poll_access_token (t : Trakt) (cfg : Config) (device_code : String)
    (responses : List PollResponse) : Res Unit :=
  match responses with
  | [] => ⟨.stuck, cfg, []⟩
  | r :: _rest =>
    let posted : Event := .post "https://api.trakt.tv/oauth/device/token"
      (.obj [("code", .str device_code), ("client_id", .str t.client_id),
             ("client_secret", .str t.client_secret)])
    if r.status == 400 then
      ⟨.exn, cfg, [posted, .prompt]⟩
    else if r.status != 200 then
      ⟨.exited 1, cfg, [posted, .msg "Something went wrong, please try again."]⟩
    else
      ⟨.ok (),
        { cfg with access_token := some r.access_token,
                   refresh_token := some r.refresh_token },
        [posted, .setOpt "access_token" r.access_token,
         .setOpt "refresh_token" r.refresh_token, .save,
         .msg "Succesfully configured your Trakt.tv sync!"]⟩

/-- `authenticate`: requests a device code and then polls for the access
token. -/
def Trakt.authenticate (t : Trakt) (cfg : Config) (device : DeviceCodeResponse)
    (polls : List PollResponse) : Res Unit :=
  (t.generate_device_code cfg device).andThen fun code cfg1 =>
    t.poll_access_token cfg1 code polls

/-- `refresh_access_token`: reads the stored `refresh_token` (fatal if
absent), posts the refresh exchange, then — without looking at the
response status — stores both tokens from the body, flushes the settings
file, and prints success. -/
def Trakt.refresh_access_token (t : Trakt) (cfg : Config) (resp : TokenResponse) :
    Res Unit :=
  (Trakt.get_refresh_token cfg).andThen fun rt cfg1 =>
    ⟨.ok (),
      { cfg1 with access_token := some resp.access_token,
                  refresh_token := some resp.refresh_token },
      [.post "https://api.trakt.tv/oauth/token"
        (.obj [("refresh_token", .str rt), ("client_id", .str t.client_id),
               ("client_secret", .str t.client_secret),
               ("redirect_uri", .str "urn:ietf:wg:oauth:2.0:oob"),
               ("grant_type", .str "refresh_token")]),
       .setOpt "access_token" resp.access_token,
       .setOpt "refresh_token" resp.refresh_token, .save,
       .msg "Refreshed access token succesfully!"]⟩

/-- Cross-service ids of a movie as returned by the metadata search. -/
structure MovieIds where
  trakt : Int
  slug : String
  imdb : String
  tmdb : Int
deriving Repr, DecidableEq

/-- `response[0]['movie']` of the movie metadata search. -/
structure MovieInfo where
  title : String
  year : Int
  ids : MovieIds
deriving Repr, DecidableEq

/-- Ids of a show; only `slug` is read by the source. -/
structure ShowIds where
  slug : String
deriving Repr, DecidableEq

/-- `response[0]['show']` of the show metadata search. -/
structure ShowInfo where
  ids : ShowIds
deriving Repr, DecidableEq

/-- Cross-service ids of an episode as returned by the episode lookup. -/
structure EpisodeIds where
  trakt : Int
  tvdb : Int
  imdb : String
  tmdb : Int
deriving Repr, DecidableEq

/-- The episode lookup response body. -/
structure EpisodeInfo where
  ids : EpisodeIds
deriving Repr, DecidableEq

/-- Environment for `sync_history`: the current UTC clock reading and the
stubbed metadata lookup responses. -/
structure SyncEnv where
  now_year : Nat
  now_month : Nat
  now_day : Nat
  now_hour : Nat
  now_minute : Nat
  now_second : Nat
  movie : MovieInfo
  showInfo : ShowInfo
  episode : EpisodeInfo
deriving Repr, DecidableEq

/-- Zero-pad to two digits, as `strftime` `%m`/`%d`/`%H`/`%M`/`%S` do. -/
def zfill2 (n : Nat) : String :=
  if n < 10 then "0" ++ toString n else toString n

/-- Zero-pad to four digits, as `strftime` `%Y` does. -/
def zfill4 (n : Nat) : String :=
  if n < 10 then "000" ++ toString n
  else if n < 100 then "00" ++ toString n
  else if n < 1000 then "0" ++ toString n
  else toString n

/-- `datetime.datetime.utcnow().strftime('%Y-%m-%dT%H:%M:%S.000Z')`
applied to the environment clock. -/
def strftime_watched_at (env : SyncEnv) : String :=
  zfill4 env.now_year ++ "-" ++ zfill2 env.now_month ++ "-" ++ zfill2 env.now_day ++ "T" ++
  zfill2 env.now_hour ++ ":" ++ zfill2 env.now_minute ++ ":" ++ zfill2 env.now_second ++
  ".000Z"

/-- The spec side of claim C8, written from its words: the current UTC
time in ISO-8601 at second precision (`YYYY-MM-DDTHH:MM:SS`), to which
the claim appends a fixed `.000` milliseconds component and `Z`. -/
def iso8601_seconds (env : SyncEnv) : String :=
  zfill4 env.now_year ++ "-" ++ zfill2 env.now_month ++ "-" ++ zfill2 env.now_day ++ "T" ++
  zfill2 env.now_hour ++ ":" ++ zfill2 env.now_minute ++ ":" ++ zfill2 env.now_second

/-- `get_movie`: GET movie search by imdb id; returns
`response[0]['movie']` from the environment. -/
def Trakt.get_movie (t : Trakt) (cfg : Config) (env : SyncEnv) : Res MovieInfo :=
  ⟨.ok env.movie, cfg,
    [.get ("https://api.trakt.tv/search/imdb/" ++ pyStrS t.imdb_id ++ "?type=movie")]⟩

/-- `get_show`: GET show search by tvdb id; returns
`response[0]['show']` from the environment. -/
def Trakt.get_show (t : Trakt) (cfg : Config) (env : SyncEnv) : Res ShowInfo :=
  ⟨.ok env.showInfo, cfg,
    [.get ("https://api.trakt.tv/search/tvdb/" ++ pyStrI t.tvdb_id ++ "?type=show")]⟩

/-- `get_episode`: GET the episode by show slug, season and episode
number; returns the response body from the environment. -/
def Trakt.get_episode (t : Trakt) (cfg : Config) (sh : ShowInfo) (env : SyncEnv) :
    Res EpisodeInfo :=
  ⟨.ok env.episode, cfg,
    [.get ("https://api.trakt.tv/shows/" ++ sh.ids.slug ++ "/seasons/" ++
      pyStrI t.season_num ++ "/episodes/" ++ pyStrI t.episode_num)]⟩

/-- `sync_history`: reads the access token (fatal if absent), stamps
`watched_at`, resolves metadata for the media reference, builds the
variant-dependent payload and posts it to the history endpoint.  When
`self.type` is neither `movie` nor `episode` the final
`requests.post(..., json=payload, ...)` raises (no `payload` local was
ever bound), modelled as `exn`. -/
def Trakt.sync_history (t : Trakt) (cfg : Config) (env : SyncEnv) : Res Unit :=
  (Trakt.get_access_token cfg).andThen fun _tok cfg1 =>
    let watched_at := strftime_watched_at env
    if t.type == some "movie" then
      (t.get_movie cfg1 env).andThen fun movie cfg2 =>
        let payload : Json := .obj [("movies", .arr [
          .obj [("watched_at", .str watched_at),
                ("title", .str movie.title),
                ("year", .num movie.year),
                ("ids", .obj [("trakt", .num movie.ids.trakt),
                              ("slug", .str movie.ids.slug),
                              ("imdb", .str movie.ids.imdb),
                              ("tmdb", .num movie.ids.tmdb)])]])]
        ⟨.ok (), cfg2, [.post "https://api.trakt.tv/sync/history" payload]⟩
    else if t.type == some "episode" then
      (t.get_show cfg1 env).andThen fun sh cfg2 =>
        (t.get_episode cfg2 sh env).andThen fun episode cfg3 =>
          let payload : Json := .obj [("episodes", .arr [
            .obj [("watched_at", .str watched_at),
                  ("ids", .obj [("trakt", .num episode.ids.trakt),
                                ("tvdb", .num episode.ids.tvdb),
                                ("imdb", .str episode.ids.imdb),
                                ("tmdb", .num episode.ids.tmdb)])]])]
          ⟨.ok (), cfg3, [.post "https://api.trakt.tv/sync/history" payload]⟩
    else
      ⟨.exn, cfg1, []⟩

/-- Parsed CLI options of `__main__`. -/
structure Opts where
  userId : Int
  contentType : String
  tvdbId : Option Int := none
  season : Option Int := none
  episode : Option Int := none
  imdbId : Option String := none
deriving Repr, DecidableEq

/-- Full environment for one invocation. -/
structure Env where
  device : DeviceCodeResponse
  polls : List PollResponse
  refresh : TokenResponse
  sync : SyncEnv
deriving Repr

/-- The `__main__` block after argument parsing: allow-list gate (with
its `and not opts.userId == -1` escape evaluated second), then dispatch
on `contentType`; an unrecognized content type prints an error and the
script falls off the end, returning normally. -/
def main (opts : Opts) (cfg : Config) (env : Env) : Res Unit :=
  (sync_for_user cfg opts.userId).andThen fun inList cfg1 =>
    if !inList && !(opts.userId == -1) then
      ⟨.exited 0, cfg1, [.msg "We will not sync for this user"]⟩
    else if opts.contentType == "trakt_authenticate" then
      (Trakt.init cfg1 .noneType).andThen fun t cfg2 =>
        t.authenticate cfg2 env.device env.polls
    else if opts.contentType == "trakt_refresh" then
      (Trakt.init cfg1 .noneType).andThen fun t cfg2 =>
        t.refresh_access_token cfg2 env.refresh
    else if opts.contentType == "movie" then
      (Trakt.init cfg1 (.movie opts.imdbId)).andThen fun t cfg2 =>
        (t.refresh_access_token cfg2 env.refresh).andThen fun _ cfg3 =>
          t.sync_history cfg3 env.sync
    else if opts.contentType == "episode" then
      (Trakt.init cfg1 (.episode opts.tvdbId opts.season opts.episode)).andThen fun t cfg2 =>
        (t.refresh_access_token cfg2 env.refresh).andThen fun _ cfg3 =>
          t.sync_history cfg3 env.sync
    else
      ⟨.ok (), cfg1, [.msg ("ERROR: " ++ opts.contentType ++ " not found - invalid contentType")]⟩

/-- Process exit status of an outcome: normal completion of the script is
status 0, `sys.exit n` is `n`, an uncaught exception is status 1.
`stuck` is an artefact of the environment model and has no status. -/
def exitStatus {α : Type} : Outcome α → Option Nat
  | .ok _ => some 0
  | .exited n => some n
  | .exn => some 1
  | .stuck => none

/-- Is this event a remote (HTTP) call? -/
def Event.isRemote : Event → Bool
  | .get _ => true
  | .post _ _ => true
  | _ => false

/-- Is this event a credential-store mutation (`config.set` or a flush)? -/
def Event.isMutation : Event → Bool
  | .setOpt _ _ => true
  | .save => true
  | _ => false

/-- Scanner state for the pairing invariant of claim C2: after a write of
`access_token` the very next event must write `refresh_token`, and the
one after that must flush to durable storage. -/
inductive PairSt where
  | idle
  | needRefresh
  | needSave
deriving Repr, DecidableEq

/-- One scanner step; `none` means the invariant is violated. -/
def pairStep : PairSt → Event → Option PairSt
  | .idle, .setOpt k _ => if k == "access_token" then some .needRefresh else some .idle
  | .idle, _ => some .idle
  | .needRefresh, .setOpt k _ => if k == "refresh_token" then some .needSave else none
  | .needRefresh, _ => none
  | .needSave, .save => some .idle
  | .needSave, _ => none

/-- Run the scanner; a trace is accepted when no step fails and the scan
ends outside a pending pair. -/
def pairedFrom : PairSt → List Event → Bool
  | st, [] => st == .idle
  | st, e :: rest =>
    match pairStep st e with
    | none => false
    | some st2 => pairedFrom st2 rest

/-- Trace invariant of claim C2: every write of `access_token` is
immediately followed by a write of `refresh_token` and then a flush to
durable storage, before any further event (in particular before any
subsequent API call). -/
def tokensPaired (l : List Event) : Bool := pairedFrom .idle l

/-- The JSON body of a POST event, if any. -/
def Event.postBody : Event → Option Json
  | .post _ b => some b
  | _ => none

/-- The `watched_at` field of the single entry of a sync payload of
either variant (`movies` or `episodes`). -/
def payloadWatchedAt : Json → Option String
  | .obj [(_, .arr [.obj (("watched_at", .str w) :: _)])] => some w
  | _ => none

/-- A concrete environment used to instantiate universally quantified
theorems at sample inputs. -/
def env0 : Env :=
  { device := ⟨"https://trakt.tv/activate", "USERCODE", "devcode"⟩,
    polls := [⟨200, "acc", "ref"⟩],
    refresh := ⟨200, "newacc", "newref"⟩,
    sync :=
      { now_year := 2026, now_month := 10, now_day := 12,
        now_hour := 3, now_minute := 4, now_second := 5,
        movie := ⟨"X", 2000, ⟨1, "x", "ttX", 2⟩⟩,
        showInfo := ⟨⟨"some-show"⟩⟩,
        episode := ⟨⟨11, 22, "ttE", 33⟩⟩ } }

/-! ## Helper lemmas for the trace invariant -/

/-- Concatenating accepted traces yields an accepted trace. -/
theorem pairedFrom_append (a b : List Event) (hb : pairedFrom .idle b = true) :
    ∀ st, pairedFrom st a = true → pairedFrom st (a ++ b) = true := by
  induction a with
  | nil =>
    intro st ha
    have : st = .idle := by
      rcases st with _ | _ | _
      · rfl
      · exact absurd ha (by simp [pairedFrom])
      · exact absurd ha (by simp [pairedFrom])
    subst this
    simpa using hb
  | cons e rest ih =>
    intro st ha
    simp only [List.cons_append, pairedFrom] at ha ⊢
    rcases h : pairStep st e with _ | st2
    · rw [h] at ha; exact absurd ha (by simp)
    · rw [h] at ha
      dsimp only at ha ⊢
      exact ih st2 ha

/-- Concatenation preserves the pairing invariant. -/
theorem tokensPaired_append (a b : List Event) (hb : tokensPaired b = true)
    (ha : tokensPaired a = true) : tokensPaired (a ++ b) = true :=
  pairedFrom_append a b hb .idle ha

/-- Sequential composition preserves the pairing invariant. -/
theorem tokensPaired_andThen {α β : Type} (r : Res α) (f : α → Config → Res β)
    (h1 : tokensPaired r.events = true)
    (h2 : ∀ a c, tokensPaired (f a c).events = true) :
    tokensPaired (Res.andThen r f).events = true := by
  unfold Res.andThen
  rcases hout : r.out with _ | _ | _ | _ <;> simp only
  · exact tokensPaired_append _ _ (h2 _ _) h1
  all_goals exact h1

/-- `sync_for_user` writes no tokens. -/
theorem tokensPaired_sync_for_user (cfg : Config) (uid : Int) :
    tokensPaired (sync_for_user cfg uid).events = true := by
  rcases cfg with ⟨u, ci, cs, at0, rt0⟩
  rcases u with _ | ids <;> rfl

/-- `Trakt.__init__` writes no tokens. -/
theorem tokensPaired_init (cfg : Config) (args : InitArgs) :
    tokensPaired (Trakt.init cfg args).events = true := by
  rcases cfg with ⟨u, ci, cs, at0, rt0⟩
  rcases ci with _ | c1
  · rfl
  · rcases cs with _ | c2
    · rfl
    · rcases args with i | ⟨i, s, e⟩ | _ <;> rfl

/-- Every trace of `poll_access_token` satisfies the pairing invariant:
the sole token-writing branch writes `access_token`, then
`refresh_token`, then flushes. -/
theorem tokensPaired_poll (t : Trakt) (cfg : Config) (dc : String)
    (rs : List PollResponse) :
    tokensPaired (t.poll_access_token cfg dc rs).events = true := by
  rcases rs with _ | ⟨r, rest⟩
  · rfl
  · unfold Trakt.poll_access_token
    dsimp only
    split
    · rfl
    · split
      · rfl
      · rfl

/-- Every trace of `authenticate` satisfies the pairing invariant. -/
theorem tokensPaired_authenticate (t : Trakt) (cfg : Config)
    (d : DeviceCodeResponse) (polls : List PollResponse) :
    tokensPaired (t.authenticate cfg d polls).events = true := by
  unfold Trakt.authenticate
  exact tokensPaired_andThen _ _ (by rfl) fun a c => tokensPaired_poll t c a polls

/-- Every trace of `refresh_access_token` satisfies the pairing
invariant: it writes `access_token`, then `refresh_token`, then
flushes. -/
theorem tokensPaired_refresh (t : Trakt) (cfg : Config) (resp : TokenResponse) :
    tokensPaired (t.refresh_access_token cfg resp).events = true := by
  unfold Trakt.refresh_access_token
  apply tokensPaired_andThen
  · rcases cfg with ⟨u, ci, cs, at0, rt0⟩
    rcases rt0 with _ | rt <;> rfl
  · intro a c
    rfl

/-- `sync_history` writes no tokens. -/
theorem tokensPaired_sync_history (t : Trakt) (cfg : Config) (env : SyncEnv) :
    tokensPaired (t.sync_history cfg env).events = true := by
  unfold Trakt.sync_history
  apply tokensPaired_andThen
  · rcases cfg with ⟨u, ci, cs, at0, rt0⟩
    rcases at0 with _ | a <;> rfl
  · intro tok c
    dsimp only
    split
    · apply tokensPaired_andThen
      · rfl
      · intro m c2; rfl
    · split
      · apply tokensPaired_andThen
        · rfl
        · intro sh c2
          apply tokensPaired_andThen
          · rfl
          · intro ep c3; rfl
      · rfl

/-! ## Claim theorems -/

/-- Claim C2: on every invocation, whatever the configuration, options
and remote responses, the event trace satisfies the store invariant:
every write of `access_token` is immediately followed by a matching
write of `refresh_token` and a synchronous flush to durable storage,
before any subsequent event (in particular before any API call that
uses the tokens). -/
theorem claimC2_token_writes_paired (opts : Opts) (cfg : Config) (env : Env) :
    tokensPaired (main opts cfg env).events = true := by
  unfold main
  apply tokensPaired_andThen
  · exact tokensPaired_sync_for_user cfg opts.userId
  · intro inList cfg1
    dsimp only
    split
    · rfl
    · split
      · exact tokensPaired_andThen _ _ (tokensPaired_init _ _)
          fun t c => tokensPaired_authenticate t c env.device env.polls
      · split
        · exact tokensPaired_andThen _ _ (tokensPaired_init _ _)
            fun t c => tokensPaired_refresh t c env.refresh
        · split
          · exact tokensPaired_andThen _ _ (tokensPaired_init _ _)
              fun t c => tokensPaired_andThen _ _ (tokensPaired_refresh t c env.refresh)
                fun _ c2 => tokensPaired_sync_history t c2 env.sync
          · split
            · exact tokensPaired_andThen _ _ (tokensPaired_init _ _)
                fun t c => tokensPaired_andThen _ _ (tokensPaired_refresh t c env.refresh)
                  fun _ c2 => tokensPaired_sync_history t c2 env.sync
            · rfl

/-- Claim C1 (code evaluation at the failing input): with a pending
(HTTP 400) poll response followed by a success (HTTP 200) response
carrying both tokens, `poll_access_token` does not retry and does not
persist anything: the source's 400 branch calls
`self.poll_access_token(self, headers, device_code)` with an extra
positional `self`, so the operation aborts with a `TypeError`, the
configuration is unchanged and no `config.set` or save is performed. -/
theorem claimC1_pending_then_success_crashes :
    (Trakt.poll_access_token { client_id := "cid", client_secret := "sec" }
        ⟨some "1", some "cid", some "sec", none, none⟩ "devcode"
        [⟨400, "", ""⟩, ⟨200, "newacc", "newref"⟩]).out = Outcome.exn ∧
    (Trakt.poll_access_token { client_id := "cid", client_secret := "sec" }
        ⟨some "1", some "cid", some "sec", none, none⟩ "devcode"
        [⟨400, "", ""⟩, ⟨200, "newacc", "newref"⟩]).cfg =
      ⟨some "1", some "cid", some "sec", none, none⟩ ∧
    (Trakt.poll_access_token { client_id := "cid", client_secret := "sec" }
        ⟨some "1", some "cid", some "sec", none, none⟩ "devcode"
        [⟨400, "", ""⟩, ⟨200, "newacc", "newref"⟩]).events.filter Event.isMutation = [] :=
  ⟨rfl, rfl, rfl⟩

/-- Claim C6: during device-token polling, a response whose status is
neither 400 (pending) nor 200 (success) is fatal: the operation prints
an error and exits with code 1, leaving the configuration unchanged and
performing no credential-store mutation. -/
theorem claimC6_other_status_fatal (t : Trakt) (cfg : Config) (dc : String)
    (r : PollResponse) (rest : List PollResponse)
    (h400 : r.status ≠ 400) (h200 : r.status ≠ 200) :
    (t.poll_access_token cfg dc (r :: rest)).out = Outcome.exited 1 ∧
    (t.poll_access_token cfg dc (r :: rest)).cfg = cfg ∧
    (t.poll_access_token cfg dc (r :: rest)).events.filter Event.isMutation = [] ∧
    Event.msg "Something went wrong, please try again." ∈
      (t.poll_access_token cfg dc (r :: rest)).events := by
  unfold Trakt.poll_access_token
  simp [h400, h200, Event.isMutation]

/-- Witness for C6 at a concrete 500 response. -/
theorem claimC6_witness :
    (Trakt.poll_access_token { client_id := "c", client_secret := "s" }
        ⟨some "1", some "c", some "s", none, none⟩ "dev" [⟨500, "a", "r"⟩]).out =
      Outcome.exited 1 ∧
    (Trakt.poll_access_token { client_id := "c", client_secret := "s" }
        ⟨some "1", some "c", some "s", none, none⟩ "dev" [⟨500, "a", "r"⟩]).cfg =
      ⟨some "1", some "c", some "s", none, none⟩ ∧
    (Trakt.poll_access_token { client_id := "c", client_secret := "s" }
        ⟨some "1", some "c", some "s", none, none⟩ "dev"
        [⟨500, "a", "r"⟩]).events.filter Event.isMutation = [] ∧
    Event.msg "Something went wrong, please try again." ∈
      (Trakt.poll_access_token { client_id := "c", client_secret := "s" }
        ⟨some "1", some "c", some "s", none, none⟩ "dev" [⟨500, "a", "r"⟩]).events :=
  claimC6_other_status_fatal _ _ _ _ _ (by decide) (by decide)

/-- Claim C3: for every prior stored token pair and every response body
carrying `access_token` and `refresh_token`, `refresh_access_token`
overwrites both stored tokens with the response values, flushes them,
and reports success — with no inspection of the response status code
(`resp.status` is universally quantified and never constrained).
Re-running with the same response leaves the stored configuration
unchanged (idempotence). -/
theorem claimC3_refresh_overwrites (t : Trakt) (cfg : Config) (resp : TokenResponse)
    (a r : String) (ha : cfg.access_token = some a) (hr : cfg.refresh_token = some r) :
    (t.refresh_access_token cfg resp).out = Outcome.ok () ∧
    (t.refresh_access_token cfg resp).cfg.access_token = some resp.access_token ∧
    (t.refresh_access_token cfg resp).cfg.refresh_token = some resp.refresh_token ∧
    Event.save ∈ (t.refresh_access_token cfg resp).events ∧
    (t.refresh_access_token (t.refresh_access_token cfg resp).cfg resp).cfg =
      (t.refresh_access_token cfg resp).cfg := by
  unfold Trakt.refresh_access_token Trakt.get_refresh_token Res.andThen
  rcases cfg with ⟨u, ci, cs, at0, rt0⟩
  simp only [Config.access_token, Config.refresh_token] at ha hr
  subst ha hr
  simp

/-- Witness for C3 at a concrete configuration and response. -/
theorem claimC3_witness :
    (Trakt.refresh_access_token { client_id := "c", client_secret := "s" }
        ⟨some "1", some "c", some "s", some "oldacc", some "oldref"⟩ ⟨200, "na", "nr"⟩).out =
      Outcome.ok () ∧
    (Trakt.refresh_access_token { client_id := "c", client_secret := "s" }
        ⟨some "1", some "c", some "s", some "oldacc", some "oldref"⟩
        ⟨200, "na", "nr"⟩).cfg.access_token = some "na" ∧
    (Trakt.refresh_access_token { client_id := "c", client_secret := "s" }
        ⟨some "1", some "c", some "s", some "oldacc", some "oldref"⟩
        ⟨200, "na", "nr"⟩).cfg.refresh_token = some "nr" ∧
    Event.save ∈ (Trakt.refresh_access_token { client_id := "c", client_secret := "s" }
        ⟨some "1", some "c", some "s", some "oldacc", some "oldref"⟩ ⟨200, "na", "nr"⟩).events ∧
    (Trakt.refresh_access_token { client_id := "c", client_secret := "s" }
        (Trakt.refresh_access_token { client_id := "c", client_secret := "s" }
          ⟨some "1", some "c", some "s", some "oldacc", some "oldref"⟩ ⟨200, "na", "nr"⟩).cfg
        ⟨200, "na", "nr"⟩).cfg =
      (Trakt.refresh_access_token { client_id := "c", client_secret := "s" }
        ⟨some "1", some "c", some "s", some "oldacc", some "oldref"⟩ ⟨200, "na", "nr"⟩).cfg :=
  claimC3_refresh_overwrites _ _ _ "oldacc" "oldref" rfl rfl

/-- Claim C4: for every user id that is not in the configured allow-list
and is not the sentinel `-1`, the invocation performs zero remote calls,
leaves the configuration untouched, and exits cleanly with code 0. -/
theorem claimC4_not_allowlisted_noop (opts : Opts) (cfg : Config) (env : Env)
    (ids : String) (hids : cfg.user_ids = some ids)
    (hnot : ((pySplitComma ids).contains (toString opts.userId)) = false)
    (hsent : opts.userId ≠ -1) :
    (main opts cfg env).out = Outcome.exited 0 ∧
    (main opts cfg env).events.filter Event.isRemote = [] ∧
    (main opts cfg env).cfg = cfg := by
  have hmem : toString opts.userId ∉ pySplitComma ids := by simpa using hnot
  unfold main sync_for_user Res.andThen
  simp [hids, hmem, hsent, Event.isRemote]

/-- Witness for C4: user 7 against allow-list `1,2`. -/
theorem claimC4_witness :
    (main { userId := 7, contentType := "movie" }
        ⟨some "1,2", some "c", some "s", some "a", some "r"⟩ env0).out =
      Outcome.exited 0 ∧
    (main { userId := 7, contentType := "movie" }
        ⟨some "1,2", some "c", some "s", some "a", some "r"⟩ env0).events.filter
        Event.isRemote = [] ∧
    (main { userId := 7, contentType := "movie" }
        ⟨some "1,2", some "c", some "s", some "a", some "r"⟩ env0).cfg =
      ⟨some "1,2", some "c", some "s", some "a", some "r"⟩ :=
  claimC4_not_allowlisted_noop _ _ _ "1,2" rfl (by decide) (by decide)

/-- Claim C10: the allow-list lookup runs before the sentinel check, so
with `user_ids` absent from the configuration every invocation — the
sentinel user id `-1` included — fails fatally with the
missing-`user_ids` error and exit code 1, before any dispatch: no remote
call, no credential mutation, configuration unchanged. -/
theorem claimC10_missing_user_ids_fatal (opts : Opts) (cfg : Config) (env : Env)
    (h : cfg.user_ids = none) :
    (main opts cfg env).out = Outcome.exited 1 ∧
    (main opts cfg env).events =
      [Event.msg "ERROR: sync_settings.ini not setup - missing user_ids"] ∧
    (main opts cfg env).cfg = cfg := by
  unfold main sync_for_user Res.andThen
  simp [h]

/-- Witness for C10 at the sentinel user id `-1`. -/
theorem claimC10_witness :
    (main { userId := -1, contentType := "trakt_authenticate" }
        ⟨none, some "c", some "s", none, none⟩ env0).out = Outcome.exited 1 ∧
    (main { userId := -1, contentType := "trakt_authenticate" }
        ⟨none, some "c", some "s", none, none⟩ env0).events =
      [Event.msg "ERROR: sync_settings.ini not setup - missing user_ids"] ∧
    (main { userId := -1, contentType := "trakt_authenticate" }
        ⟨none, some "c", some "s", none, none⟩ env0).cfg =
      ⟨none, some "c", some "s", none, none⟩ :=
  claimC10_missing_user_ids_fatal _ _ _ rfl

/-- Claim C5: with `client_id` absent from the configuration, every
dispatched operation (`trakt_authenticate`, `trakt_refresh`, `movie`,
`episode`) fails with the error naming the missing `client_id` field and
exits with code 1 before any network call is attempted. -/
theorem claimC5_missing_client_id (opts : Opts) (cfg : Config) (env : Env)
    (ids : String) (hids : cfg.user_ids = some ids)
    (hallow : ((pySplitComma ids).contains (toString opts.userId)) = true ∨
      opts.userId = -1)
    (hcid : cfg.client_id = none)
    (hct : opts.contentType = "trakt_authenticate" ∨ opts.contentType = "trakt_refresh" ∨
      opts.contentType = "movie" ∨ opts.contentType = "episode") :
    (main opts cfg env).out = Outcome.exited 1 ∧
    (main opts cfg env).events.filter Event.isRemote = [] ∧
    Event.msg "ERROR: sync_settings.ini not setup - missing client_id" ∈
      (main opts cfg env).events := by
  unfold main sync_for_user Trakt.init Res.andThen
  rcases hct with h | h | h | h <;> rcases hallow with hmem | hsent <;>
    first
    | (have hmem2 : toString opts.userId ∈ pySplitComma ids := by simpa using hmem
       simp [hids, hmem2, h, hcid, Event.isRemote])
    | simp [hids, hsent, h, hcid, Event.isRemote]

/-- Witness for C5: sentinel user, content type `movie`, no client_id. -/
theorem claimC5_witness :
    (main { userId := -1, contentType := "movie" }
        ⟨some "1,2", none, some "s", some "a", some "r"⟩ env0).out =
      Outcome.exited 1 ∧
    (main { userId := -1, contentType := "movie" }
        ⟨some "1,2", none, some "s", some "a", some "r"⟩ env0).events.filter
        Event.isRemote = [] ∧
    Event.msg "ERROR: sync_settings.ini not setup - missing client_id" ∈
      (main { userId := -1, contentType := "movie" }
        ⟨some "1,2", none, some "s", some "a", some "r"⟩ env0).events :=
  claimC5_missing_client_id _ _ _ "1,2" rfl (Or.inr rfl) rfl (Or.inr (Or.inr (Or.inl rfl)))

/-- Claim C9: an unrecognized content type prints the invalid-content
type error and falls through without an explicit failure exit: the
process terminates with exit status 0, performs no remote call and
mutates no credential; the configuration is returned unchanged. -/
theorem claimC9_unknown_content_type (opts : Opts) (cfg : Config) (env : Env)
    (ids : String) (hids : cfg.user_ids = some ids)
    (hallow : ((pySplitComma ids).contains (toString opts.userId)) = true ∨
      opts.userId = -1)
    (h1 : opts.contentType ≠ "trakt_authenticate")
    (h2 : opts.contentType ≠ "trakt_refresh")
    (h3 : opts.contentType ≠ "movie")
    (h4 : opts.contentType ≠ "episode") :
    exitStatus (main opts cfg env).out = some 0 ∧
    (main opts cfg env).events.filter Event.isRemote = [] ∧
    (main opts cfg env).events.filter Event.isMutation = [] ∧
    (main opts cfg env).cfg = cfg ∧
    Event.msg ("ERROR: " ++ opts.contentType ++ " not found - invalid contentType") ∈
      (main opts cfg env).events := by
  unfold main sync_for_user Res.andThen
  rcases hallow with hmem | hsent
  · have hmem2 : toString opts.userId ∈ pySplitComma ids := by simpa using hmem
    simp [hids, hmem2, h1, h2, h3, h4, Event.isRemote, Event.isMutation, exitStatus]
  · simp [hids, hsent, h1, h2, h3, h4, Event.isRemote, Event.isMutation, exitStatus]

/-- Witness for C9 at content type `song`. -/
theorem claimC9_witness :
    exitStatus (main { userId := 1, contentType := "song" }
        ⟨some "1,2", some "c", some "s", some "a", some "r"⟩ env0).out = some 0 ∧
    (main { userId := 1, contentType := "song" }
        ⟨some "1,2", some "c", some "s", some "a", some "r"⟩ env0).events.filter
        Event.isRemote = [] ∧
    (main { userId := 1, contentType := "song" }
        ⟨some "1,2", some "c", some "s", some "a", some "r"⟩ env0).events.filter
        Event.isMutation = [] ∧
    (main { userId := 1, contentType := "song" }
        ⟨some "1,2", some "c", some "s", some "a", some "r"⟩ env0).cfg =
      ⟨some "1,2", some "c", some "s", some "a", some "r"⟩ ∧
    Event.msg ("ERROR: " ++ "song" ++ " not found - invalid contentType") ∈
      (main { userId := 1, contentType := "song" }
        ⟨some "1,2", some "c", some "s", some "a", some "r"⟩ env0).events :=
  claimC9_unknown_content_type _ _ _ "1,2" rfl (Or.inl (by decide))
    (by decide) (by decide) (by decide) (by decide)

/-- Claim C7: `sync_history` builds exactly the variant-dependent
payload: for a movie, one `movies` entry with `watched_at`, `title`,
`year` and `ids { trakt, slug, imdb, tmdb }`; for an episode, one
`episodes` entry with `watched_at` and `ids { trakt, tvdb, imdb, tmdb }`
and no title or year fields; the ids are taken verbatim from the
metadata lookup results. -/
theorem claimC7_payload_shapes (t : Trakt) (cfg : Config) (env : SyncEnv)
    (tok : String) (htok : cfg.access_token = some tok) :
    (t.type = some "movie" →
      (t.sync_history cfg env).events =
        [Event.get ("https://api.trakt.tv/search/imdb/" ++ pyStrS t.imdb_id ++ "?type=movie"),
         Event.post "https://api.trakt.tv/sync/history" (Json.obj [("movies", Json.arr [
           Json.obj [("watched_at", Json.str (strftime_watched_at env)),
                     ("title", Json.str env.movie.title),
                     ("year", Json.num env.movie.year),
                     ("ids", Json.obj [("trakt", Json.num env.movie.ids.trakt),
                                       ("slug", Json.str env.movie.ids.slug),
                                       ("imdb", Json.str env.movie.ids.imdb),
                                       ("tmdb", Json.num env.movie.ids.tmdb)])]])])]) ∧
    (t.type = some "episode" →
      (t.sync_history cfg env).events =
        [Event.get ("https://api.trakt.tv/search/tvdb/" ++ pyStrI t.tvdb_id ++ "?type=show"),
         Event.get ("https://api.trakt.tv/shows/" ++ env.showInfo.ids.slug ++ "/seasons/" ++
           pyStrI t.season_num ++ "/episodes/" ++ pyStrI t.episode_num),
         Event.post "https://api.trakt.tv/sync/history" (Json.obj [("episodes", Json.arr [
           Json.obj [("watched_at", Json.str (strftime_watched_at env)),
                     ("ids", Json.obj [("trakt", Json.num env.episode.ids.trakt),
                                       ("tvdb", Json.num env.episode.ids.tvdb),
                                       ("imdb", Json.str env.episode.ids.imdb),
                                       ("tmdb", Json.num env.episode.ids.tmdb)])]])])]) := by
  constructor
  · intro hty
    unfold Trakt.sync_history Trakt.get_access_token Trakt.get_movie Res.andThen
    simp [htok, hty]
  · intro hty
    unfold Trakt.sync_history Trakt.get_access_token Trakt.get_show Trakt.get_episode
      Res.andThen
    simp [htok, hty]

/-- Witness for C7: a concrete movie-typed object and environment. -/
theorem claimC7_witness :
    let t : Trakt := { type := some "movie", imdb_id := some "tt1", client_id := "c",
                       client_secret := "s" }
    let cfg : Config := ⟨some "1", some "c", some "s", some "tok", some "ref"⟩
    (t.type = some "movie" →
      (t.sync_history cfg env0.sync).events =
        [Event.get ("https://api.trakt.tv/search/imdb/" ++ pyStrS t.imdb_id ++ "?type=movie"),
         Event.post "https://api.trakt.tv/sync/history" (Json.obj [("movies", Json.arr [
           Json.obj [("watched_at", Json.str (strftime_watched_at env0.sync)),
                     ("title", Json.str env0.sync.movie.title),
                     ("year", Json.num env0.sync.movie.year),
                     ("ids", Json.obj [("trakt", Json.num env0.sync.movie.ids.trakt),
                                       ("slug", Json.str env0.sync.movie.ids.slug),
                                       ("imdb", Json.str env0.sync.movie.ids.imdb),
                                       ("tmdb", Json.num env0.sync.movie.ids.tmdb)])]])])]) ∧
    (t.type = some "episode" →
      (t.sync_history cfg env0.sync).events =
        [Event.get ("https://api.trakt.tv/search/tvdb/" ++ pyStrI t.tvdb_id ++ "?type=show"),
         Event.get ("https://api.trakt.tv/shows/" ++ env0.sync.showInfo.ids.slug ++
           "/seasons/" ++ pyStrI t.season_num ++ "/episodes/" ++ pyStrI t.episode_num),
         Event.post "https://api.trakt.tv/sync/history" (Json.obj [("episodes", Json.arr [
           Json.obj [("watched_at", Json.str (strftime_watched_at env0.sync)),
                     ("ids", Json.obj [("trakt", Json.num env0.sync.episode.ids.trakt),
                                       ("tvdb", Json.num env0.sync.episode.ids.tvdb),
                                       ("imdb", Json.str env0.sync.episode.ids.imdb),
                                       ("tmdb", Json.num env0.sync.episode.ids.tmdb)])]])])]) :=
  claimC7_payload_shapes _ _ env0.sync "tok" rfl

/-- Claim C8: the `watched_at` value stamped into every sync payload
(movie or episode variant) is the environment clock formatted in
ISO-8601 at second precision with a fixed `.000` milliseconds component
and a `Z` suffix. -/
theorem claimC8_watched_at_format (t : Trakt) (cfg : Config) (env : SyncEnv)
    (tok : String) (htok : cfg.access_token = some tok)
    (hty : t.type = some "movie" ∨ t.type = some "episode") :
    strftime_watched_at env = iso8601_seconds env ++ ".000Z" ∧
    ((t.sync_history cfg env).events.getLast?.bind Event.postBody).bind payloadWatchedAt =
      some (iso8601_seconds env ++ ".000Z") := by
  have hfmt : strftime_watched_at env = iso8601_seconds env ++ ".000Z" := rfl
  refine ⟨hfmt, ?_⟩
  rcases hty with h | h
  · unfold Trakt.sync_history Trakt.get_access_token Trakt.get_movie Res.andThen
    simp [htok, h, Event.postBody, payloadWatchedAt, ← hfmt]
  · unfold Trakt.sync_history Trakt.get_access_token Trakt.get_show Trakt.get_episode
      Res.andThen
    simp [htok, h, Event.postBody, payloadWatchedAt, ← hfmt]

/-- Witness for C8 at a concrete episode-typed object. -/
theorem claimC8_witness :
    strftime_watched_at env0.sync = iso8601_seconds env0.sync ++ ".000Z" ∧
    ((Trakt.sync_history
        { type := some "episode", tvdb_id := some 5, season_num := some 1,
          episode_num := some 2, client_id := "c", client_secret := "s" }
        ⟨some "1", some "c", some "s", some "tok", some "ref"⟩
        env0.sync).events.getLast?.bind Event.postBody).bind payloadWatchedAt =
      some (iso8601_seconds env0.sync ++ ".000Z") :=
  claimC8_watched_at_format _ _ env0.sync "tok" rfl (Or.inr rfl)

end TraktSync
